import Mathlib

/-!
Verification of the natural-language specification of the Yesterdaysleads
service against its implementation (`src/main.py`).

The embedding is shallow: timestamps are rationals (seconds since the Unix
epoch, UTC), ages are rationals (fractional days), Python dictionaries are
association lists with first-match lookup and insert-or-overwrite update,
and Mongo documents are records with optional fields.
-/

namespace YesterdaysLeads

/-! ## Age-bucket classifier (`bucket_from_created_at`, main.py lines 231-260) -/

/-- Embeds the body of `bucket_from_created_at` after the age computation:
the chain of interval tests over the age in fractional days, including the
trailing "gap" clauses for ages in (3,4), (14,15), (30,31) and (90,91). -/
def bucketFromAge (age_days : ℚ) : String :=
  if age_days < 0 then "YESTERDAY_72H"
  else if age_days ≤ 3 then "YESTERDAY_72H"
  else if 4 ≤ age_days ∧ age_days ≤ 14 then "DAYS_4_14"
  else if 15 ≤ age_days ∧ age_days ≤ 30 then "DAYS_15_30"
  else if 31 ≤ age_days ∧ age_days ≤ 90 then "DAYS_31_90"
  else if 91 ≤ age_days then "DAYS_91_PLUS"
  else if age_days < 4 then "YESTERDAY_72H"
  else if age_days < 15 then "DAYS_4_14"
  else if age_days < 31 then "DAYS_15_30"
  else if age_days < 91 then "DAYS_31_90"
  else "DAYS_91_PLUS"

/-- Embeds `bucket_from_created_at`.  `created_at` is an optional UTC
timestamp in seconds; `now` is the current UTC timestamp in seconds.  The
age is `(now - created_at).total_seconds() / 86400.0`.  A Python `datetime`
is always truthy, so `if not created_at` is exactly the `None` test. -/
def bucket_from_created_at (created_at : Option ℚ) (now : ℚ) : Option String :=
  match created_at with
  | none => none
  | some t => some (bucketFromAge ((now - t) / 86400))

/-! ## Pricing table (`DEFAULT_PRICING`, `load_pricing`, `price_for`,
`caboom_retail_for`, main.py lines 42-96 and 262-276) -/

/-! ## Python string primitives

Modelled over the `List Char` view of `String` so that they reduce inside
the kernel.  They embed the Python `str` methods the source uses
(`strip`, `upper`, `lower`, `replace` with a one-character needle,
`isdigit`, `int`/`float` conversion), on the ASCII inputs the service
handles. -/

/-- Python `s.strip()`: drop whitespace from both ends. -/
def pyStrip (s : String) : String :=
  ⟨((s.data.dropWhile Char.isWhitespace).reverse.dropWhile Char.isWhitespace).reverse⟩

/-- Python `s.upper()` (ASCII). -/
def pyUpper (s : String) : String :=
  ⟨s.data.map Char.toUpper⟩

/-- Python `s.lower()` (ASCII). -/
def pyLower (s : String) : String :=
  ⟨s.data.map Char.toLower⟩

/-- Python `s.replace(c, r)` for a one-character needle `c` (the source
only replaces `"Z"` and `" "`). -/
def pyReplace (s : String) (c : Char) (r : String) : String :=
  ⟨s.data.foldr (fun ch acc => (if ch = c then r.data else [ch]) ++ acc) []⟩

/-- Numeric value of a list of decimal digit characters. -/
def digitsToNat (cs : List Char) : ℕ :=
  cs.foldl (fun n c => 10 * n + (c.toNat - 48)) 0

/-- Splits a character list on a separator character (like
`str.split(sep)` with all pieces kept). -/
def splitChar : List Char → Char → List (List Char)
  | [], _ => [[]]
  | ch :: rest, c =>
    let r := splitChar rest c
    if ch = c then [] :: r
    else
      match r with
      | [] => [[ch]]
      | h :: t => (ch :: h) :: t

/-- A Python `Dict[str, float]` as an association list (unique keys,
first-match lookup). -/
abbrev PriceRow := List (String × ℚ)

/-- A Python `Dict[str, Dict[str, float]]`. -/
abbrev PricingTable := List (String × PriceRow)

/-- Embeds `DEFAULT_PRICING` (main.py lines 42-75). -/
def DEFAULT_PRICING : PricingTable :=
  [ ("final_expense",
      [("YESTERDAY_72H", 15), ("DAYS_4_14", 10), ("DAYS_15_30", 15/2),
       ("DAYS_31_90", 5), ("DAYS_91_PLUS", 5/2), ("CABOOM_RETAIL", 25)]),
    ("life",
      [("YESTERDAY_72H", 21), ("DAYS_4_14", 14), ("DAYS_15_30", 10),
       ("DAYS_31_90", 7), ("DAYS_91_PLUS", 7/2), ("CABOOM_RETAIL", 35)]),
    ("veteran_life",
      [("YESTERDAY_72H", 14), ("DAYS_4_14", 9), ("DAYS_15_30", 7),
       ("DAYS_31_90", 4), ("DAYS_91_PLUS", 2), ("CABOOM_RETAIL", 23)]),
    ("home",
      [("YESTERDAY_72H", 16), ("DAYS_4_14", 11), ("DAYS_15_30", 8),
       ("DAYS_31_90", 11/2), ("DAYS_91_PLUS", 3), ("CABOOM_RETAIL", 27)]),
    ("auto",
      [("YESTERDAY_72H", 16), ("DAYS_4_14", 11), ("DAYS_15_30", 8),
       ("DAYS_31_90", 11/2), ("DAYS_91_PLUS", 3), ("CABOOM_RETAIL", 27)]),
    ("medicare",
      [("YESTERDAY_72H", 15), ("DAYS_4_14", 10), ("DAYS_15_30", 15/2),
       ("DAYS_31_90", 5), ("DAYS_91_PLUS", 5/2), ("CABOOM_RETAIL", 25)]),
    ("health",
      [("YESTERDAY_72H", 16), ("DAYS_4_14", 11), ("DAYS_15_30", 8),
       ("DAYS_31_90", 11/2), ("DAYS_91_PLUS", 3), ("CABOOM_RETAIL", 27)]),
    ("retirement",
      [("YESTERDAY_72H", 29), ("DAYS_4_14", 19), ("DAYS_15_30", 14),
       ("DAYS_31_90", 9), ("DAYS_91_PLUS", 9/2), ("CABOOM_RETAIL", 50)]) ]

/-- JSON values, as produced by `json.loads`. -/
inductive Json where
  | null
  | bool (b : Bool)
  | num (q : ℚ)
  | str (s : String)
  | arr (xs : List Json)
  | obj (kvs : List (String × Json))

/-- Embeds Python `float(x)` on a decimal string: optional sign, digits,
optional fractional part, surrounding whitespace allowed.  Exotic float
syntax (exponents, underscores, inf/nan, hex) is outside the model; on it
this returns `none` like any other parse failure. -/
def parsePyFloat (s : String) : Option ℚ :=
  let t := (pyStrip s).data
  let (sign, t1) : ℚ × List Char :=
    match t with
    | '-' :: rest => (-1, rest)
    | '+' :: rest => (1, rest)
    | _ => (1, t)
  match splitChar t1 '.' with
  | [a] =>
      if a ≠ [] ∧ a.all Char.isDigit then
        some (sign * (digitsToNat a : ℚ))
      else none
  | [a, b] =>
      if (a ≠ [] ∨ b ≠ []) ∧ a.all Char.isDigit ∧ b.all Char.isDigit then
        some (sign * ((digitsToNat a : ℚ) + (digitsToNat b : ℚ) / (10 ^ b.length)))
      else none
  | _ => none

/-- Embeds Python `float(price)` on a JSON value: numbers convert, booleans
convert to 0/1, decimal strings parse; `None`, lists and objects raise
(`none` here). -/
def pyFloat : Json → Option ℚ
  | .num q => some q
  | .bool b => some (if b then 1 else 0)
  | .str s => parsePyFloat s
  | _ => none

/-- Python `dict` assignment `m[k] = v`: overwrite in place when the key is
present, append otherwise (insertion order preserved). -/
def dictInsert (m : List (String × α)) (k : String) (v : α) : List (String × α) :=
  if m.any (fun p => p.1 == k) then
    m.map (fun p => if p.1 == k then (k, v) else p)
  else m ++ [(k, v)]

/-- Embeds the inner dict comprehension of `load_pricing` (main.py lines
87-90): bucket keys are trimmed and upper-cased, prices pass through
`float`; a `float` failure raises out of the whole comprehension. -/
def normRow : List (String × Json) → PriceRow → Option PriceRow
  | [], acc => some acc
  | (bk, pv) :: rest, acc =>
    match pyFloat pv with
    | none => none
    | some q => normRow rest (dictInsert acc (pyUpper (pyStrip bk)) q)

/-- Embeds the outer loop of `load_pricing` (main.py lines 85-90): product
keys are trimmed and lower-cased; values that are not dicts are skipped;
a raising inner comprehension aborts the whole build. -/
def buildOut : List (String × Json) → PricingTable → Option PricingTable
  | [], acc => some acc
  | (k, v) :: rest, acc =>
    match v with
    | .obj row =>
      match normRow row [] with
      | none => none
      | some r => buildOut rest (dictInsert acc (pyLower (pyStrip k)) r)
    | _ => buildOut rest acc

/-- Embeds `load_pricing` (main.py lines 77-94).  The raw `PRICING_JSON`
environment value is represented by what `json.loads` does with it:
`none` = unset or empty (falsy), `some none` = set but not valid JSON
(`json.loads` raises, caught by the bare except), `some (some j)` = parses
to `j`.  Every failure path falls back to `DEFAULT_PRICING`. -/
def load_pricing (raw : Option (Option Json)) : PricingTable :=
  match raw with
  | none => DEFAULT_PRICING
  | some none => DEFAULT_PRICING
  | some (some data) =>
    match data with
    | .obj kvs =>
      match buildOut kvs [] with
      | none => DEFAULT_PRICING
      | some out => if out.isEmpty then DEFAULT_PRICING else out
    | _ => DEFAULT_PRICING

/-- Embeds `price_for` (main.py lines 262-268).  `if not type_key or not
bucket` is the Python falsy test on an optional string: `None` or `""`.
`if not m` is the falsy test on the row dict (absent or empty). -/
def price_for (pricing : PricingTable) (type_key bucket : Option String) : Option ℚ :=
  match type_key, bucket with
  | some tk, some b =>
    if tk = "" ∨ b = "" then none
    else
      match pricing.lookup tk with
      | none => none
      | some m => if m.isEmpty then none else m.lookup b
  | _, _ => none

/-- Embeds `caboom_retail_for` (main.py lines 270-276). -/
def caboom_retail_for (pricing : PricingTable) (type_key : Option String) : Option ℚ :=
  match type_key with
  | none => none
  | some tk =>
    if tk = "" then none
    else
      match pricing.lookup tk with
      | none => none
      | some m => if m.isEmpty then none else m.lookup "CABOOM_RETAIL"

/-! ## Module-level startup (main.py lines 18-28 and 96) -/

/-- Configuration environment at process start: the backing-store URI and
the raw pricing override (encoded as in `load_pricing`). -/
structure AppConfig where
  mongo_uri : Option String
  pricing_json : Option (Option Json)

/-- Embeds the module-level startup code: `if not MONGO_URI: raise
RuntimeError(...)` (main.py lines 27-28) then `PRICING = load_pricing()`
(line 96).  An `Except.error` is the process refusing to start. -/
def startup (cfg : AppConfig) : Except String PricingTable :=
  if cfg.mongo_uri = none ∨ cfg.mongo_uri = some "" then
    .error "Missing env var MONGO_URI"
  else
    .ok (load_pricing cfg.pricing_json)

/-! ## Stored values and documents

Mongo field values the service branches on: strings, integers and BSON
dates.  A BSON date is decoded by the driver as a tz-naive UTC `datetime`;
it is embedded as its UTC timestamp in seconds (rational, to keep
sub-second precision). -/

inductive Bson where
  | str (s : String)
  | int (n : ℤ)
  | date (ts : ℚ)
deriving DecidableEq, Repr

/-- A lead document in the `LeadsData` collection, with the fields
`leads_search` and its helpers read.  `oid` stands for the unique `_id`
(ObjectId, totally ordered). -/
structure LeadDoc where
  oid : ℕ
  createdAt : Option Bson := none
  created_at : Option Bson := none
  state : Option String := none
  state2 : Option String := none
  zip5 : Option String := none
  zip_code : Option Bson := none
  lead_type_code : Option String := none
  lead_type_norm : Option String := none
deriving DecidableEq, Repr

/-- Embeds the pydantic model `LeadsSearchRequest` (main.py lines 122-131);
pydantic already enforces `page ≥ 1` and `1 ≤ limit ≤ 200` at the
boundary. -/
structure LeadsSearchRequest where
  bucket : String := "ALL"
  page : ℤ := 1
  limit : ℤ := 25
  state : Option String := none
  zip : Option String := none
  lead_type_norm : Option String := none
  lead_type_code : Option String := none

/-! ## Normalization helpers (main.py lines 142-207) -/

/-- Embeds `norm_zip` (main.py lines 142-144): keep the digits of the
trimmed input, and keep only the first five when at least five remain. -/
def norm_zip (v : String) : String :=
  let z := (pyStrip v).data.filter Char.isDigit
  if 5 ≤ z.length then ⟨z.take 5⟩ else ⟨z⟩

/-- Embeds `norm_state` (main.py lines 146-147). -/
def norm_state (v : String) : String :=
  pyUpper (pyStrip v)

/-- Embeds `norm_bucket` (main.py lines 149-167): trim, default to
`"ALL"`, upper-case, then apply the alias table with unknown names passed
through unchanged. -/
def norm_bucket (v : String) : String :=
  let b := pyStrip v
  if b = "" then "ALL"
  else
    match pyUpper b with
    | "YESTERDAY_72" => "YESTERDAY_72H"
    | "YESTERDAY" => "YESTERDAY_72H"
    | "YESTERDAY_72H" => "YESTERDAY_72H"
    | "4_14" => "DAYS_4_14"
    | "DAYS_4_14" => "DAYS_4_14"
    | "15_30" => "DAYS_15_30"
    | "DAYS_15_30" => "DAYS_15_30"
    | "31_90" => "DAYS_31_90"
    | "DAYS_31_90" => "DAYS_31_90"
    | "91_PLUS" => "DAYS_91_PLUS"
    | "DAYS_91_PLUS" => "DAYS_91_PLUS"
    | other => other

/-- Embeds `CODE_TO_KEY` (main.py lines 170-179). -/
def CODE_TO_KEY : List (String × String) :=
  [("FE", "final_expense"), ("LIFE", "life"), ("VET", "veteran_life"),
   ("HOME", "home"), ("AUTO", "auto"), ("MED", "medicare"),
   ("HEALTH", "health"), ("RET", "retirement")]

/-- Embeds `norm_type_key_from_doc` (main.py lines 181-207): prefer the
canonical `lead_type_code`, fall back to a normalized `lead_type_norm`,
and accept a fallback name only when it is an alias or a pricing key. -/
def norm_type_key_from_doc (pricing : PricingTable) (d : LeadDoc) : Option String :=
  let code := pyUpper (pyStrip (d.lead_type_code.getD ""))
  match CODE_TO_KEY.lookup code with
  | some k => some k
  | none =>
    let ln0 := pyLower (pyStrip (d.lead_type_norm.getD ""))
    if ln0 = "" then none
    else
      let ln := pyReplace ln0 (Char.ofNat 32) "_"
      if ln = "veteran" ∨ ln = "vet" ∨ ln = "veteranlife" ∨ ln = "veteran_life" then
        some "veteran_life"
      else if ln = "finalexpense" ∨ ln = "final_expense" then some "final_expense"
      else if ln = "med" ∨ ln = "medicare" then some "medicare"
      else if ln = "ret" ∨ ln = "retirement" then some "retirement"
      else if (pricing.lookup ln).isSome then some ln
      else none

/-! ## Timestamp parsing (`parse_dt`, main.py lines 209-229)

The string branch models `datetime.fromisoformat` on the formats the
source relies on ("2026-01-30T00:00:00.000+00:00", "2026-01-30", a space
separator, optional seconds and fraction, and a ±HH:MM / ±HHMM / ±HH
offset).  Exotic ISO-8601 forms (week dates, ordinal dates, offset
seconds) are outside the model and parse to `none` like any malformed
string. -/

/-- Days from the civil epoch 1970-01-01 for a proleptic Gregorian date
(the standard era-based calendar computation). -/
def daysFromCivil (y : ℤ) (m d : ℕ) : ℤ :=
  let y2 : ℤ := if m ≤ 2 then y - 1 else y
  let era : ℤ := (if 0 ≤ y2 then y2 else y2 - 399) / 400
  let yoe : ℤ := y2 - era * 400
  let mp : ℕ := (m + 9) % 12
  let doy : ℤ := (153 * mp + 2) / 5 + (d : ℤ) - 1
  let doe : ℤ := yoe * 365 + yoe / 4 - yoe / 100 + doy
  era * 146097 + doe - 719468

/-- Gregorian leap year. -/
def isLeap (y : ℤ) : Bool :=
  y % 4 = 0 ∧ (y % 100 ≠ 0 ∨ y % 400 = 0)

/-- Days in a month. -/
def daysInMonth (y : ℤ) (m : ℕ) : ℕ :=
  if m = 2 then (if isLeap y then 29 else 28)
  else if m = 4 ∨ m = 6 ∨ m = 9 ∨ m = 11 then 30
  else 31

/-- Reads exactly `n` decimal digits. -/
def takeDigits (n : ℕ) (cs : List Char) : Option (ℕ × List Char) :=
  let pre := cs.take n
  if pre.length = n ∧ pre.all Char.isDigit then some (digitsToNat pre, cs.drop n)
  else none

/-- Consumes an expected character. -/
def expectChar (c : Char) : List Char → Option (List Char)
  | x :: rest => if x = c then some rest else none
  | [] => none

/-- Parses `HH[:MM[:SS[.fff...]]]`, returning the seconds into the day and
the unconsumed tail. -/
def parseTime (cs : List Char) : Option (ℚ × List Char) := do
  let (h, cs1) ← takeDigits 2 cs
  if h ≤ 23 then
    match expectChar ':' cs1 with
    | none => some ((h : ℚ) * 3600, cs1)
    | some cs2 => do
      let (mi, cs3) ← takeDigits 2 cs2
      if mi ≤ 59 then
        match expectChar ':' cs3 with
        | none => some ((h : ℚ) * 3600 + (mi : ℚ) * 60, cs3)
        | some cs4 => do
          let (se, cs5) ← takeDigits 2 cs4
          if se ≤ 59 then
            match cs5 with
            | '.' :: rest =>
              let frac := rest.takeWhile Char.isDigit
              let rest2 := rest.dropWhile Char.isDigit
              if frac = [] then none
              else some ((h : ℚ) * 3600 + (mi : ℚ) * 60 + (se : ℚ) +
                          (digitsToNat frac : ℚ) / 10 ^ frac.length, rest2)
            | _ => some ((h : ℚ) * 3600 + (mi : ℚ) * 60 + (se : ℚ), cs5)
          else none
      else none
  else none

/-- Parses a UTC-offset body `HH`, `HH:MM` or `HHMM` (after the sign), to
seconds; must consume the whole tail. -/
def parseOffsetBody (cs : List Char) : Option ℚ := do
  let (h, cs1) ← takeDigits 2 cs
  if h ≤ 23 then
    match cs1 with
    | [] => some ((h : ℚ) * 3600)
    | ':' :: cs2 => do
      let (mi, cs3) ← takeDigits 2 cs2
      if mi ≤ 59 ∧ cs3 = [] then some ((h : ℚ) * 3600 + (mi : ℚ) * 60) else none
    | _ => do
      let (mi, cs3) ← takeDigits 2 cs1
      if mi ≤ 59 ∧ cs3 = [] then some ((h : ℚ) * 3600 + (mi : ℚ) * 60) else none
  else none

/-- Result of `datetime.fromisoformat`: the wall-clock timestamp in
seconds (as if UTC) and the explicit UTC offset when one was written. -/
structure IsoParts where
  ts : ℚ
  offset : Option ℚ
deriving DecidableEq, Repr

/-- Models `datetime.fromisoformat` on the supported formats. -/
def fromisoformat (s : String) : Option IsoParts := do
  let (y, cs1) ← takeDigits 4 s.data
  let cs2 ← expectChar '-' cs1
  let (mo, cs3) ← takeDigits 2 cs2
  let cs4 ← expectChar '-' cs3
  let (d, cs5) ← takeDigits 2 cs4
  if 1 ≤ mo ∧ mo ≤ 12 ∧ 1 ≤ d ∧ d ≤ daysInMonth (y : ℤ) mo then
    let base : ℚ := (daysFromCivil (y : ℤ) mo d : ℚ) * 86400
    match cs5 with
    | [] => some ⟨base, none⟩
    | sep :: rest =>
      if sep = 'T' ∨ sep.toNat = 32 then do
        let (tsecs, rest2) ← parseTime rest
        match rest2 with
        | [] => some ⟨base + tsecs, none⟩
        | sign :: rest3 =>
          if sign = '+' ∨ sign = '-' then do
            let off ← parseOffsetBody rest3
            some ⟨base + tsecs, some (if sign = '-' then -off else off)⟩
          else none
      else none
  else none

/-- Embeds `parse_dt` (main.py lines 209-229).  `none` is Python `None`;
a BSON date arrives as a naive UTC `datetime` (assumed UTC by the code);
strings are trimmed, `"Z"` is rewritten to `"+00:00"`, and the result is
normalized to UTC (`astimezone(timezone.utc)` subtracts the offset);
non-string non-datetime values return `None`. -/
def parse_dt : Option Bson → Option ℚ
  | none => none
  | some (.date ts) => some ts
  | some (.int _) => none
  | some (.str v) =>
    let s := pyStrip v
    if s = "" then none
    else
      match fromisoformat (pyReplace s 'Z' "+00:00") with
      | none => none
      | some p => some (p.ts - p.offset.getD 0)

/-! ## Bucket range queries (`bucket_range_query`, main.py lines 278-312)

A Mongo `$gte`/`$lte` comparison against a `Date` operand only matches
stored BSON dates (type bracketing): strings and numbers never satisfy a
date-range condition. -/

/-- Field value satisfies `{"$gte": bound}` with a date bound. -/
def dateGe (v : Option Bson) (bound : ℚ) : Bool :=
  match v with
  | some (.date t) => bound ≤ t
  | _ => false

/-- Field value satisfies `{"$lte": bound}` with a date bound. -/
def dateLe (v : Option Bson) (bound : ℚ) : Bool :=
  match v with
  | some (.date t) => t ≤ bound
  | _ => false

/-- Embeds `or_created` (main.py lines 288-290): the range condition may
be met by either `createdAt` or `created_at`. -/
def orCreated (p : Option Bson → Bool) (d : LeadDoc) : Bool :=
  p d.createdAt || p d.created_at

/-- Embeds `bucket_range_query` (main.py lines 278-312) as the predicate
the produced Mongo query enforces on a document; `none` means no filter
("ALL" or an unrecognized bucket name). -/
def bucket_range_query (now : ℚ) (bucket_up : String) : Option (LeadDoc → Bool) :=
  let b := norm_bucket bucket_up
  if b = "ALL" then none
  else if b = "YESTERDAY_72H" then
    some (orCreated (fun v => dateGe v (now - 259200)))
  else if b = "DAYS_4_14" then
    some (orCreated (fun v => dateLe v (now - 345600) && dateGe v (now - 1209600)))
  else if b = "DAYS_15_30" then
    some (orCreated (fun v => dateLe v (now - 1296000) && dateGe v (now - 2592000)))
  else if b = "DAYS_31_90" then
    some (orCreated (fun v => dateLe v (now - 2678400) && dateGe v (now - 7776000)))
  else if b = "DAYS_91_PLUS" then
    some (orCreated (fun v => dateLe v (now - 7862400)))
  else none

/-! ## Search query construction (`leads_search`, main.py lines 389-431) -/

/-- Python `str.isdigit`: nonempty and all digits. -/
def pyIsDigit (s : String) : Bool :=
  s.data ≠ [] && s.data.all Char.isDigit

/-- The `$or` clause of the state filter (main.py line 402). -/
def stateClause (st : String) (d : LeadDoc) : Bool :=
  d.state == some st || d.state2 == some st

/-- The `$or` clause of the zip filter (main.py lines 409-412): `zip5` as
a string, `zip_code` as a string, and, when the zip is digits, `zip_code`
as an integer. -/
def zipClause (z : String) (d : LeadDoc) : Bool :=
  d.zip5 == some z || d.zip_code == some (.str z) ||
    (pyIsDigit z && d.zip_code == some (.int (digitsToNat z.data)))

/-- The exact-match clause on the raw `lead_type_code` field (main.py
line 418). -/
def codeClause (code : String) (d : LeadDoc) : Bool :=
  d.lead_type_code == some code

/-- The case-insensitive exact-match regex clause
`{"$regex": "^lt$", "$options": "i"}` on `lead_type_norm` (main.py line
423), for a needle without regex metacharacters (the anchored pattern then
means case-insensitive equality); a missing or non-string field never
matches a regex. -/
def normClause (lt : String) (d : LeadDoc) : Bool :=
  match d.lead_type_norm with
  | some s => pyLower s == pyLower lt
  | none => false

/-- The lead-type clauses (main.py lines 414-423): the code branch wins
whenever `lead_type_code` is present and nonblank, otherwise the
`lead_type_norm` branch is considered. -/
def typeClauses (body : LeadsSearchRequest) : List (LeadDoc → Bool) :=
  match body.lead_type_code with
  | some s =>
    if pyStrip s ≠ "" then
      let code := pyUpper (pyStrip s)
      if (CODE_TO_KEY.lookup code).isSome then [codeClause code] else []
    else
      match body.lead_type_norm with
      | some s2 => if pyStrip s2 ≠ "" then [normClause (pyStrip s2)] else []
      | none => []
  | none =>
    match body.lead_type_norm with
    | some s2 => if pyStrip s2 ≠ "" then [normClause (pyStrip s2)] else []
    | none => []

/-- Embeds the `and_clauses` list built by `leads_search` (main.py lines
389-423), each clause as the predicate its Mongo fragment enforces. -/
def and_clauses (body : LeadsSearchRequest) (now : ℚ) : List (LeadDoc → Bool) :=
  (match bucket_range_query now (norm_bucket body.bucket) with
   | some p => [p]
   | none => []) ++
  (match body.state with
   | some s =>
     if pyStrip s ≠ "" then
       let st := norm_state s
       if st ≠ "ALL STATES" ∧ st ≠ "ALL" ∧ st ≠ "ANY" then [stateClause st] else []
     else []
   | none => []) ++
  (match body.zip with
   | some s =>
     if pyStrip s ≠ "" then
       let z := norm_zip s
       if z ≠ "" then [zipClause z] else []
     else []
   | none => []) ++
  typeClauses body

/-- The final Mongo query `q` as the predicate it enforces: `{}` when no
clause, the single clause alone, or their `$and` conjunction (main.py
lines 425-431) — in every case the conjunction of the built clauses. -/
def matchesQuery (body : LeadsSearchRequest) (now : ℚ) (d : LeadDoc) : Bool :=
  (and_clauses body now).all (fun p => p d)

/-! ## Sorting (main.py line 439)

`sort = [("createdAt", -1), ("created_at", -1), ("_id", -1)]`: descending
on each key in turn.  Mongo compares values of different BSON types by
type rank (missing/null below numbers below strings below dates), so a
descending sort puts dates first and missing fields last. -/

/-- Generic three-way comparison on a linear order. -/
def cmpLin [LinearOrder α] (a b : α) : Ordering :=
  if a < b then .lt else if b < a then .gt else .eq

/-- Lexicographic three-way comparison on character lists (the Mongo
binary/codepoint string order). -/
def cmpChars : List Char → List Char → Ordering
  | [], [] => .eq
  | [], _ :: _ => .lt
  | _ :: _, [] => .gt
  | a :: as, b :: bs => (cmpLin a b).then (cmpChars as bs)

/-- the Mongo cross-type comparison on an optional stored value: missing
(null) sorts below numbers, numbers below strings, strings below dates;
values of the same type compare within the type. -/
def cmpBson : Option Bson → Option Bson → Ordering
  | none, none => .eq
  | none, some _ => .lt
  | some _, none => .gt
  | some (.int m), some (.int n) => cmpLin m n
  | some (.int _), some (.str _) => .lt
  | some (.int _), some (.date _) => .lt
  | some (.str _), some (.int _) => .gt
  | some (.str s), some (.str t) => cmpChars s.data t.data
  | some (.str _), some (.date _) => .lt
  | some (.date _), some (.int _) => .gt
  | some (.date _), some (.str _) => .gt
  | some (.date u), some (.date v) => cmpLin u v

/-- Pairwise lexicographic composition of comparators. -/
def cmpProd (c1 : α → α → Ordering) (c2 : β → β → Ordering)
    (x y : α × β) : Ordering :=
  (c1 x.1 y.1).then (c2 x.2 y.2)

/-- The three sort fields of a document, in sort order. -/
def leadKey (d : LeadDoc) : Option Bson × Option Bson × ℕ :=
  (d.createdAt, d.created_at, d.oid)

/-- The composite comparator on sort keys. -/
def cmpLeadKey : Option Bson × Option Bson × ℕ → Option Bson × Option Bson × ℕ → Ordering :=
  cmpProd cmpBson (cmpProd cmpBson cmpLin)

/-- The document comparison the descending three-key sort realizes:
compare the keys of `b` against those of `a` (descending on every key). -/
def cmpDoc (a b : LeadDoc) : Ordering :=
  cmpLeadKey (leadKey b) (leadKey a)

/-- The sort relation: `a` precedes `b` unless `a` compares strictly after
`b`. -/
def docBefore (a b : LeadDoc) : Prop :=
  cmpDoc a b ≠ .gt

instance : DecidableRel docBefore :=
  fun a b => inferInstanceAs (Decidable (cmpDoc a b ≠ .gt))

/-- Lawfulness of a three-way comparator: antisymmetric under swap,
reflecting equality, and strictly transitive.  Enough to make the induced
weak order total and transitive. -/
structure LawCmp (c : α → α → Ordering) : Prop where
  swap_eq : ∀ a b, c a b = (c b a).swap
  eq_imp : ∀ a b, c a b = .eq → a = b
  lt_trans : ∀ {a b d}, c a b = .lt → c b d = .lt → c a d = .lt

lemma ordering_then_swap (x2 y2 : Ordering) :
    (x2.swap).then (y2.swap) = (x2.then y2).swap := by
  cases x2 <;> cases y2 <;> rfl

lemma lawCmp_cmpLin [LinearOrder α] : LawCmp (cmpLin (α := α)) := by
  refine ⟨?_, ?_, ?_⟩
  · intro a b
    unfold cmpLin
    rcases lt_trichotomy a b with h | h | h
    · simp [h, asymm h, Ordering.swap]
    · simp [h, lt_irrefl, Ordering.swap]
    · simp [h, asymm h, Ordering.swap]
  · intro a b h
    unfold cmpLin at h
    split_ifs at h with h1 h2
    exact le_antisymm (not_lt.mp h2) (not_lt.mp h1)
  · intro a b d h1 h2
    unfold cmpLin at *
    split_ifs at * <;> first | rfl | exact absurd (lt_trans ‹a < b› ‹b < d›) ‹¬ a < d›

lemma lawCmp_cmpChars : LawCmp cmpChars := by
  have L : LawCmp (cmpLin (α := Char)) := lawCmp_cmpLin
  refine ⟨?_, ?_, ?_⟩
  · intro a
    induction a with
    | nil => intro b; cases b <;> rfl
    | cons x xs ih =>
      intro b
      cases b with
      | nil => rfl
      | cons y ys =>
        show (cmpLin x y).then (cmpChars xs ys) = ((cmpLin y x).then (cmpChars ys xs)).swap
        rw [L.swap_eq x y, ih ys, ordering_then_swap]
  · intro a
    induction a with
    | nil =>
      intro b h
      cases b with
      | nil => rfl
      | cons y ys => cases h
    | cons x xs ih =>
      intro b h
      cases b with
      | nil => cases h
      | cons y ys =>
        have h' : (cmpLin x y).then (cmpChars xs ys) = .eq := h
        have hx : cmpLin x y = .eq := by
          cases hc : cmpLin x y <;> rw [hc] at h' <;> first | rfl | cases h'
        have ht : cmpChars xs ys = .eq := by
          rw [hx] at h'; exact h'
        rw [L.eq_imp x y hx, ih ys ht]
  · intro a
    induction a with
    | nil =>
      intro b d h1 h2
      cases b with
      | nil => exact h2
      | cons y ys =>
        cases d with
        | nil => cases h2
        | cons z zs => rfl
    | cons x xs ih =>
      intro b d h1 h2
      cases b with
      | nil => cases h1
      | cons y ys =>
        cases d with
        | nil => cases h2
        | cons z zs =>
          have h1' : (cmpLin x y).then (cmpChars xs ys) = .lt := h1
          have h2' : (cmpLin y z).then (cmpChars ys zs) = .lt := h2
          show (cmpLin x z).then (cmpChars xs zs) = .lt
          cases hxy : cmpLin x y with
          | gt => rw [hxy] at h1'; cases h1'
          | lt =>
            cases hyz : cmpLin y z with
            | gt => rw [hyz] at h2'; cases h2'
            | lt => rw [L.lt_trans hxy hyz]; rfl
            | eq => rw [← L.eq_imp y z hyz, hxy]; rfl
          | eq =>
            have hx := L.eq_imp x y hxy
            subst hx
            rw [hxy] at h1'
            cases hyz : cmpLin x z with
            | gt => rw [hyz] at h2'; cases h2'
            | lt => rfl
            | eq =>
              rw [hyz] at h2'
              show cmpChars xs zs = .lt
              exact ih (show cmpChars xs ys = .lt from h1')
                (show cmpChars ys zs = .lt from h2')

lemma lawCmp_cmpBson : LawCmp cmpBson := by
  have LZ : LawCmp (cmpLin (α := ℤ)) := lawCmp_cmpLin
  have LQ : LawCmp (cmpLin (α := ℚ)) := lawCmp_cmpLin
  have LC : LawCmp cmpChars := lawCmp_cmpChars
  refine ⟨?_, ?_, ?_⟩
  · intro x y
    rcases x with _ | bx
    all_goals rcases y with _ | b2
    all_goals try cases bx
    all_goals try cases b2
    all_goals first
      | rfl
      | exact LZ.swap_eq _ _
      | exact LQ.swap_eq _ _
      | exact LC.swap_eq _ _
  · intro x y h
    rcases x with _ | bx
    all_goals rcases y with _ | b2
    all_goals try cases bx
    all_goals try cases b2
    all_goals first
      | rfl
      | cases h
      | rw [LZ.eq_imp _ _ h]
      | rw [LQ.eq_imp _ _ h]
      | (rename_i s t
         have hd : s.data = t.data := LC.eq_imp _ _ h
         have hst : s = t := by cases s; cases t; exact congrArg String.mk hd
         rw [hst])
  · intro x y z h1 h2
    rcases x with _ | bx
    all_goals rcases y with _ | b2
    all_goals rcases z with _ | b3
    all_goals try cases bx
    all_goals try cases b2
    all_goals try cases b3
    all_goals first
      | rfl
      | exact Ordering.noConfusion h1
      | exact Ordering.noConfusion h2
      | exact LZ.lt_trans h1 h2
      | exact LC.lt_trans h1 h2
      | exact LQ.lt_trans h1 h2

lemma lawCmp_cmpProd {c1 : α → α → Ordering} {c2 : β → β → Ordering}
    (L1 : LawCmp c1) (L2 : LawCmp c2) : LawCmp (cmpProd c1 c2) := by
  refine ⟨?_, ?_, ?_⟩
  · intro x y
    show (c1 x.1 y.1).then (c2 x.2 y.2) = ((c1 y.1 x.1).then (c2 y.2 x.2)).swap
    rw [L1.swap_eq x.1 y.1, L2.swap_eq x.2 y.2, ordering_then_swap]
  · intro x y h
    have h' : (c1 x.1 y.1).then (c2 x.2 y.2) = .eq := h
    have hx : c1 x.1 y.1 = .eq := by
      cases hc : c1 x.1 y.1 <;> rw [hc] at h' <;> first | rfl | cases h'
    have ht : c2 x.2 y.2 = .eq := by
      rw [hx] at h'; exact h'
    have e1 := L1.eq_imp _ _ hx
    have e2 := L2.eq_imp _ _ ht
    cases x; cases y
    simp_all
  · intro x y z h1 h2
    have h1' : (c1 x.1 y.1).then (c2 x.2 y.2) = .lt := h1
    have h2' : (c1 y.1 z.1).then (c2 y.2 z.2) = .lt := h2
    show (c1 x.1 z.1).then (c2 x.2 z.2) = .lt
    cases hxy : c1 x.1 y.1 with
    | gt => rw [hxy] at h1'; cases h1'
    | lt =>
      cases hyz : c1 y.1 z.1 with
      | gt => rw [hyz] at h2'; cases h2'
      | lt => rw [L1.lt_trans hxy hyz]; rfl
      | eq => rw [← L1.eq_imp _ _ hyz, hxy]; rfl
    | eq =>
      have hx := L1.eq_imp _ _ hxy
      rw [hxy] at h1'
      cases hyz : c1 y.1 z.1 with
      | gt => rw [hyz] at h2'; cases h2'
      | lt => rw [hx, hyz]; rfl
      | eq =>
        rw [hyz] at h2'
        rw [hx, hyz]
        show c2 x.2 z.2 = .lt
        exact L2.lt_trans (show c2 x.2 y.2 = .lt from h1')
          (show c2 y.2 z.2 = .lt from h2')

lemma lawCmp_cmpLeadKey : LawCmp cmpLeadKey :=
  lawCmp_cmpProd lawCmp_cmpBson (lawCmp_cmpProd lawCmp_cmpBson lawCmp_cmpLin)

instance : IsTrans LeadDoc docBefore := by
  constructor
  intro a b c h1 h2
  have L := lawCmp_cmpLeadKey
  intro hac
  cases hxy : cmpLeadKey (leadKey c) (leadKey b) with
  | gt => exact h2 hxy
  | lt =>
    cases hyz : cmpLeadKey (leadKey b) (leadKey a) with
    | gt => exact h1 hyz
    | lt =>
      have := L.lt_trans hxy hyz
      rw [show cmpDoc a c = cmpLeadKey (leadKey c) (leadKey a) from rfl] at hac
      rw [this] at hac
      cases hac
    | eq =>
      rw [L.eq_imp _ _ hyz] at hxy
      rw [show cmpDoc a c = cmpLeadKey (leadKey c) (leadKey a) from rfl, hxy] at hac
      cases hac
  | eq =>
    have hk := L.eq_imp _ _ hxy
    rw [show cmpDoc a c = cmpLeadKey (leadKey c) (leadKey a) from rfl, hk] at hac
    exact h1 hac

instance : IsTotal LeadDoc docBefore := by
  constructor
  intro a b
  have L := lawCmp_cmpLeadKey
  by_cases h : cmpDoc a b = .gt
  · right
    intro h2
    have h' : cmpLeadKey (leadKey b) (leadKey a) = .gt := h
    have h2' : cmpLeadKey (leadKey a) (leadKey b) = .gt := h2
    have hsw := L.swap_eq (leadKey b) (leadKey a)
    rw [h', h2'] at hsw
    simp [Ordering.swap] at hsw
  · left; exact h

/-! ## The search route (`leads_search`, main.py lines 381-474) -/

/-- One element of the `items` list: the document plus the annotations the
route adds before returning it. -/
structure AnnotatedLead where
  doc : LeadDoc
  age_bucket : Option String
  price : Option ℚ
  caboom_retail : Option ℚ
  type_key : Option String
deriving DecidableEq, Repr

/-- Embeds the per-document annotation step of `leads_search` (main.py
lines 446-461): effective creation time (`createdAt` falling back to
`created_at`), bucket from that time, type key, price and retail price. -/
def annotate (pricing : PricingTable) (now : ℚ) (d : LeadDoc) : AnnotatedLead :=
  let created :=
    match parse_dt d.createdAt with
    | some t => some t
    | none => parse_dt d.created_at
  let bucket := bucket_from_created_at created now
  let type_key := norm_type_key_from_doc pricing d
  { doc := d
    age_bucket := bucket
    price := price_for pricing type_key bucket
    caboom_retail := caboom_retail_for pricing type_key
    type_key := type_key }

/-- The response of `leads_search` (main.py lines 463-474), restricted to
the fields with logic behind them. -/
structure LeadsSearchResponse where
  page : ℤ
  limit : ℤ
  total : ℕ
  bucket_filter : String
  items : List AnnotatedLead
deriving DecidableEq, Repr

/-- Embeds `leads_search` (main.py lines 381-474) over a store `db`:
filter by the built query, sort descending by `createdAt`, `created_at`,
`_id`, skip `(page-1)*limit`, take `limit`, annotate each returned
document, and report the total count of query matches. -/
def leads_search (pricing : PricingTable) (db : List LeadDoc)
    (body : LeadsSearchRequest) (now : ℚ) : LeadsSearchResponse :=
  let bucket_up := norm_bucket body.bucket
  let filtered := db.filter (matchesQuery body now)
  let sorted := List.insertionSort docBefore filtered
  let skip := (body.page - 1) * body.limit
  let docs := (sorted.drop skip.toNat).take body.limit.toNat
  { page := body.page
    limit := body.limit
    total := filtered.length
    bucket_filter := bucket_up
    items := docs.map (annotate pricing now) }

/-! ## Evaluation lemmas for the classifier -/

lemma bucketFromAge_y72 (a : ℚ) (h : a < 4) :
    bucketFromAge a = "YESTERDAY_72H" := by
  unfold bucketFromAge
  split_ifs <;> first | rfl | (exfalso; linarith)

lemma bucketFromAge_d4 (a : ℚ) (h0 : 4 ≤ a) (h : a < 15) :
    bucketFromAge a = "DAYS_4_14" := by
  unfold bucketFromAge
  split_ifs <;> first | rfl | (exfalso; linarith)

lemma bucketFromAge_d15 (a : ℚ) (h0 : 15 ≤ a) (h : a < 31) :
    bucketFromAge a = "DAYS_15_30" := by
  unfold bucketFromAge
  split_ifs <;> first | rfl | (exfalso; linarith)

lemma bucketFromAge_d31 (a : ℚ) (h0 : 31 ≤ a) (h : a < 91) :
    bucketFromAge a = "DAYS_31_90" := by
  unfold bucketFromAge
  split_ifs <;> first | rfl | (exfalso; linarith)

lemma bucketFromAge_d91 (a : ℚ) (h : 91 ≤ a) :
    bucketFromAge a = "DAYS_91_PLUS" := by
  unfold bucketFromAge
  split_ifs <;> first | rfl | (exfalso; linarith)

/-! ## Claim C1 -/

/-- C1 counterexample.  The claim says age 3.0001 maps to the 4-14-day tier
and age 90.0001 to the 91-plus tier.  The code instead pushes the gap ages
(3,4) to `YESTERDAY_72H` and (90,91) to `DAYS_31_90` (main.py lines
251-259), so the claimed half-open boundary table is false at age 3.0001
and at age 90.0001. -/
theorem c1_counterexample :
    bucketFromAge ((30001 : ℚ) / 10000) = "YESTERDAY_72H"
  ∧ bucketFromAge ((30001 : ℚ) / 10000) ≠ "DAYS_4_14"
  ∧ bucketFromAge ((900001 : ℚ) / 10000) = "DAYS_31_90"
  ∧ bucketFromAge ((900001 : ℚ) / 10000) ≠ "DAYS_91_PLUS" := by
  have h1 : bucketFromAge ((30001 : ℚ) / 10000) = "YESTERDAY_72H" :=
    bucketFromAge_y72 _ (by norm_num)
  have h2 : bucketFromAge ((900001 : ℚ) / 10000) = "DAYS_31_90" :=
    bucketFromAge_d31 _ (by norm_num) (by norm_num)
  refine ⟨h1, ?_, h2, ?_⟩ <;> simp [h1, h2]

/-- C1 (amended): for every non-negative age in fractional days the bucket
classifier is total and assigns exactly one of the five tiers, but with the
boundaries the code actually implements: [0,4) is the 0-3-day tier, [4,15)
the 4-14-day tier, [15,31) the 15-30-day tier, [31,91) the 31-90-day tier,
and [91,inf) the 91-plus tier. -/
theorem c1_bucket_partition (a : ℚ) (ha : 0 ≤ a) :
    (bucketFromAge a = "YESTERDAY_72H" ↔ a < 4)
  ∧ (bucketFromAge a = "DAYS_4_14" ↔ 4 ≤ a ∧ a < 15)
  ∧ (bucketFromAge a = "DAYS_15_30" ↔ 15 ≤ a ∧ a < 31)
  ∧ (bucketFromAge a = "DAYS_31_90" ↔ 31 ≤ a ∧ a < 91)
  ∧ (bucketFromAge a = "DAYS_91_PLUS" ↔ 91 ≤ a) := by
  rcases lt_or_le a 4 with h | h4
  · rw [bucketFromAge_y72 a h]
    refine ⟨?_, ?_, ?_, ?_, ?_⟩ <;> simp <;>
      first | linarith | (constructor <;> linarith) | (intros; linarith)
  rcases lt_or_le a 15 with h | h15
  · rw [bucketFromAge_d4 a h4 h]
    refine ⟨?_, ?_, ?_, ?_, ?_⟩ <;> simp <;>
      first | linarith | (constructor <;> linarith) | (intros; linarith)
  rcases lt_or_le a 31 with h | h31
  · rw [bucketFromAge_d15 a h15 h]
    refine ⟨?_, ?_, ?_, ?_, ?_⟩ <;> simp <;>
      first | linarith | (constructor <;> linarith) | (intros; linarith)
  rcases lt_or_le a 91 with h | h91
  · rw [bucketFromAge_d31 a h31 h]
    refine ⟨?_, ?_, ?_, ?_, ?_⟩ <;> simp <;>
      first | linarith | (constructor <;> linarith) | (intros; linarith)
  · rw [bucketFromAge_d91 a h91]
    refine ⟨?_, ?_, ?_, ?_, ?_⟩ <;> simp <;>
      first | linarith | (constructor <;> linarith) | (intros; linarith)

/-- C1 witness: the amended partition at the concrete age 5. -/
theorem c1_bucket_partition_witness :
    (0 : ℚ) ≤ 5
  ∧ ((bucketFromAge (5 : ℚ) = "YESTERDAY_72H" ↔ (5 : ℚ) < 4)
    ∧ (bucketFromAge (5 : ℚ) = "DAYS_4_14" ↔ 4 ≤ (5 : ℚ) ∧ (5 : ℚ) < 15)
    ∧ (bucketFromAge (5 : ℚ) = "DAYS_15_30" ↔ 15 ≤ (5 : ℚ) ∧ (5 : ℚ) < 31)
    ∧ (bucketFromAge (5 : ℚ) = "DAYS_31_90" ↔ 31 ≤ (5 : ℚ) ∧ (5 : ℚ) < 91)
    ∧ (bucketFromAge (5 : ℚ) = "DAYS_91_PLUS" ↔ 91 ≤ (5 : ℚ))) :=
  ⟨by norm_num, c1_bucket_partition 5 (by norm_num)⟩

/-! ## Claim C7 -/

/-- C7: a `createdAt` strictly in the future of `now` gives a negative
computed age, which the classifier clamps to the freshest tier
`YESTERDAY_72H`; it never fails and never yields a negative-age tier. -/
theorem c7_future_timestamp (t now : ℚ) (h : now < t) :
    bucket_from_created_at (some t) now = some "YESTERDAY_72H" := by
  have hneg : (now - t) / 86400 < 0 :=
    div_neg_of_neg_of_pos (by linarith) (by norm_num)
  simp only [bucket_from_created_at]
  unfold bucketFromAge
  rw [if_pos hneg]

/-- C7 witness: a record created one hour (3600 s) after `now = 0`. -/
theorem c7_future_timestamp_witness :
    (0 : ℚ) < 3600 ∧ bucket_from_created_at (some (3600 : ℚ)) 0 = some "YESTERDAY_72H" :=
  ⟨by norm_num, c7_future_timestamp 3600 0 (by norm_num)⟩

/-! ## Claim C4 -/

/-- C4 counterexample.  The claim says a malformed pricing override is a
fatal startup error.  In the code `load_pricing` swallows every parse
failure (`except Exception: pass`, main.py lines 92-93) and returns
`DEFAULT_PRICING`, so with a backing store configured and a malformed
`PRICING_JSON` the process starts and serves with the default table. -/
theorem c4_counterexample :
    startup { mongo_uri := some "mongodb://db.example.net", pricing_json := some none } =
      .ok DEFAULT_PRICING := rfl

/-- C4 (amended): a malformed pricing override is not fatal.  Whenever the
backing-store URI is configured, startup succeeds for every pricing
override, and every malformed override (unparseable document, non-object
document, row with an unconvertible price) silently yields the default
pricing table.  Only a missing or empty `MONGO_URI` is fatal at startup. -/
theorem c4_malformed_pricing_nonfatal (uri : String) (h : uri ≠ "")
    (pj : Option (Option Json)) :
    startup { mongo_uri := some uri, pricing_json := pj } = .ok (load_pricing pj)
  ∧ load_pricing (some none) = DEFAULT_PRICING
  ∧ load_pricing (some (some (.arr []))) = DEFAULT_PRICING
  ∧ load_pricing (some (some (.obj [("life", .obj [("YESTERDAY_72H", .null)])]))) =
      DEFAULT_PRICING
  ∧ startup { mongo_uri := none, pricing_json := pj } =
      .error "Missing env var MONGO_URI" := by
  refine ⟨?_, rfl, rfl, rfl, rfl⟩
  simp [startup, h]

/-- C4 witness: the amended statement at a concrete URI and the concrete
malformed override. -/
theorem c4_malformed_pricing_nonfatal_witness :
    "mongodb://db.example.net" ≠ ""
  ∧ (startup { mongo_uri := some "mongodb://db.example.net", pricing_json := some none } =
        .ok (load_pricing (some none))
    ∧ load_pricing (some none) = DEFAULT_PRICING
    ∧ load_pricing (some (some (.arr []))) = DEFAULT_PRICING
    ∧ load_pricing (some (some (.obj [("life", .obj [("YESTERDAY_72H", .null)])]))) =
        DEFAULT_PRICING
    ∧ startup { mongo_uri := none, pricing_json := some none } =
        .error "Missing env var MONGO_URI") :=
  ⟨by decide, c4_malformed_pricing_nonfatal "mongodb://db.example.net" (by decide) (some none)⟩

/-! ## Claim C8 -/

/-- C8: the price lookup returns the configured price when the (product
type, tier) entry is present, and `none` (absent, not zero, not an error)
when the product type or the tier is missing.  Instantiated on the
scenario of the spec: the override table with only life/YESTERDAY_72H priced at
21 (the name the code gives the freshest tier). -/
theorem c8_price_lookup :
    (price_for
        (load_pricing (some (some (.obj [("life", .obj [("YESTERDAY_72H", .num 21)])]))))
        (some "life") (some "YESTERDAY_72H") = some 21
      ∧ price_for
          (load_pricing (some (some (.obj [("life", .obj [("YESTERDAY_72H", .num 21)])]))))
          (some "life") (some "DAYS_4_14") = none
      ∧ price_for
          (load_pricing (some (some (.obj [("life", .obj [("YESTERDAY_72H", .num 21)])]))))
          (some "auto") (some "YESTERDAY_72H") = none)
  ∧ (∀ (pricing : PricingTable) (tk b : String) (m : PriceRow) (v : ℚ),
      tk ≠ "" → b ≠ "" → pricing.lookup tk = some m → m.lookup b = some v →
      price_for pricing (some tk) (some b) = some v)
  ∧ (∀ (pricing : PricingTable) (tk b : String),
      pricing.lookup tk = none → price_for pricing (some tk) (some b) = none)
  ∧ (∀ (pricing : PricingTable) (tk b : String) (m : PriceRow),
      pricing.lookup tk = some m → m.lookup b = none →
      price_for pricing (some tk) (some b) = none) := by
  refine ⟨⟨by decide, by decide, by decide⟩, ?_, ?_, ?_⟩
  · intro pricing tk b m v htk hb hm hv
    have hne : m.isEmpty = false := by
      cases m with
      | nil => simp at hv
      | cons x xs => rfl
    simp [price_for, htk, hb, hm, hne, hv]
  · intro pricing tk b hm
    simp [price_for, hm]
  · intro pricing tk b m hm hv
    simp [price_for, hm, hv]

/-- C8 witness: the present-entry clause applied to the default table at
("life", "DAYS_4_14"), whose configured price is 14. -/
theorem c8_price_lookup_witness :
    price_for DEFAULT_PRICING (some "life") (some "DAYS_4_14") = some 14 :=
  c8_price_lookup.2.1 DEFAULT_PRICING "life" "DAYS_4_14" _ 14
    (by decide) (by decide) rfl rfl

/-! ## Checkout (spec §4.5)

The repository source under `src/` contains no checkout route; the claims
about it are settled against a model built from the spec. -/

/-- Modelled from the spec: the sale ledger of a record (spec §3, §4.5) — the
record identifier and the set of tiers in which it has been sold, kept as
a duplicate-free list. -/
structure LedgerRec where
  rid : String
  soldTiers : List String
deriving DecidableEq, Repr

/-- Modelled from the spec: the conditional per-record update of checkout
step 1 (spec §4.5) — add `tier` to the ledger of a requested record unless
it is already present; all other records are untouched. -/
def addTierIfAbsent (tier : String) (ids : List String) (r : LedgerRec) : LedgerRec :=
  if r.rid ∈ ids ∧ tier ∉ r.soldTiers then
    { r with soldTiers := r.soldTiers ++ [tier] }
  else r

/-- Modelled from the spec: the store after checkout step 1. -/
def checkoutStore (tier : String) (ids : List String) (store : List LedgerRec) :
    List LedgerRec :=
  store.map (addTierIfAbsent tier ids)

/-- Modelled from the spec: the reread of checkout step 2 — a requested id is
"sold" when some record with that id now has `tier` in its ledger. -/
def soldNow (tier : String) (store2 : List LedgerRec) (i : String) : Bool :=
  store2.any (fun r => r.rid == i && r.soldTiers.contains tier)

/-- Result of a checkout call (spec §4.5 step 3). -/
structure CheckoutResult where
  store : List LedgerRec
  requested : ℕ
  sold : ℕ
  failed : List String
deriving DecidableEq, Repr

/-- Modelled from the spec: `checkout(tier, recordIds)` (spec §4.5) —
conditionally add the tier to every requested ledger, reread, and
partition the requested ids into sold and failed (order-preserving). -/
def checkout (tier : String) (ids : List String) (store : List LedgerRec) :
    CheckoutResult :=
  { store := checkoutStore tier ids store
    requested := ids.length
    sold := (ids.filter (soldNow tier (checkoutStore tier ids store))).length
    failed := ids.filter (fun i => !(soldNow tier (checkoutStore tier ids store) i)) }

lemma addTierIfAbsent_idem (tier : String) (ids : List String) (r : LedgerRec) :
    addTierIfAbsent tier ids (addTierIfAbsent tier ids r) = addTierIfAbsent tier ids r := by
  by_cases h : r.rid ∈ ids ∧ tier ∉ r.soldTiers
  · simp [addTierIfAbsent, h]
  · simp [addTierIfAbsent, h]

lemma checkoutStore_idem (tier : String) (ids : List String) (store : List LedgerRec) :
    checkoutStore tier ids (checkoutStore tier ids store) = checkoutStore tier ids store := by
  unfold checkoutStore
  rw [List.map_map]
  exact List.map_congr_left (fun r _ => addTierIfAbsent_idem tier ids r)

/-! ## Claim C3 -/

/-- C3: checkout is idempotent per (tier, ids): re-running checkout with
the same tier and id list on the store the first call produced returns the
very same result — the same sold count, the same failed list, and a store
whose every ledger (hence its tier-membership) is unchanged.  Modelled
from the spec (§4.5): the repository source has no checkout code. -/
theorem c3_checkout_idempotent (tier : String) (ids : List String)
    (store : List LedgerRec) :
    checkout tier ids (checkout tier ids store).store = checkout tier ids store := by
  simp only [checkout, checkoutStore_idem]

/-! ## Facts about returned items -/

/-- Every returned item is the annotation of a document that satisfies the
built Mongo query. -/
lemma item_doc_matches (pricing : PricingTable) (db : List LeadDoc)
    (body : LeadsSearchRequest) (now : ℚ) (it : AnnotatedLead)
    (h : it ∈ (leads_search pricing db body now).items) :
    matchesQuery body now it.doc = true := by
  obtain ⟨d, hd, rfl⟩ := List.mem_map.mp h
  show matchesQuery body now d = true
  have h1 : d ∈ List.insertionSort docBefore (db.filter (matchesQuery body now)) :=
    List.drop_subset _ _ (List.take_subset _ _ hd)
  rw [List.mem_insertionSort] at h1
  exact List.of_mem_filter h1

/-! ## Claim C2 -/

/-- C2 counterexample.  The claim says the optional criteria are
ranking-only boosts that never exclude a record.  In the code every
supplied criterion becomes a mandatory query clause: a lone record with
state "TX" survives the base query (it is returned by a criterion-free
search) yet a search for state "CA" returns nothing — the record was
hidden by the criterion, and its page had room for it. -/
theorem c2_counterexample :
    (leads_search DEFAULT_PRICING
        [{ oid := 1, createdAt := some (.date 0), state := some "TX" }]
        { state := some "CA" } 1000).items = []
  ∧ ((leads_search DEFAULT_PRICING
        [{ oid := 1, createdAt := some (.date 0), state := some "TX" }]
        {} 1000).items.map AnnotatedLead.doc) =
      [{ oid := 1, createdAt := some (.date 0), state := some "TX" }] :=
  ⟨by decide, by decide⟩

/-- C2 (amended): the supplied criteria are exclusionary filters, not
boosts.  In particular a supplied, non-blank state criterion (other than
the all-states words) excludes every record whose `state` and `state2`
both differ from the normalized criterion: the returned documents never
contain such a record. -/
theorem c2_state_filter_excludes (pricing : PricingTable) (db : List LeadDoc)
    (body : LeadsSearchRequest) (now : ℚ) (st : String) (d : LeadDoc)
    (hb : body.state = some st) (hne : pyStrip st ≠ "")
    (h1 : norm_state st ≠ "ALL STATES") (h2 : norm_state st ≠ "ALL")
    (h3 : norm_state st ≠ "ANY")
    (hs : d.state ≠ some (norm_state st)) (hs2 : d.state2 ≠ some (norm_state st)) :
    ((leads_search pricing db body now).items.map AnnotatedLead.doc).contains d = false := by
  have hall : ∀ it ∈ (leads_search pricing db body now).items, it.doc ≠ d := by
    intro it hit heq
    have hm := item_doc_matches pricing db body now it hit
    rw [heq] at hm
    have hcl : stateClause (norm_state st) ∈ and_clauses body now := by
      unfold and_clauses
      rw [hb]
      simp [hne, h1, h2, h3]
    have hone := List.all_eq_true.mp hm _ hcl
    simp only [stateClause, Bool.or_eq_true, beq_iff_eq] at hone
    rcases hone with hc | hc
    · exact hs hc
    · exact hs2 hc
  cases hc : ((leads_search pricing db body now).items.map AnnotatedLead.doc).contains d
  · rfl
  · exfalso
    have hmem : d ∈ (leads_search pricing db body now).items.map AnnotatedLead.doc :=
      List.elem_iff.mp hc
    obtain ⟨it, hit, hed⟩ := List.mem_map.mp hmem
    exact hall it hit hed

/-- C2 witness: the amended exclusion applied to the concrete Texas record
and the "CA" criterion. -/
theorem c2_state_filter_excludes_witness :
    ((leads_search DEFAULT_PRICING
        [{ oid := 1, createdAt := some (.date 0), state := some "TX" }]
        { state := some "CA" } 1000).items.map AnnotatedLead.doc).contains
      { oid := 1, createdAt := some (.date 0), state := some "TX" } = false :=
  c2_state_filter_excludes DEFAULT_PRICING
    [{ oid := 1, createdAt := some (.date 0), state := some "TX" }]
    { state := some "CA" } 1000 "CA"
    { oid := 1, createdAt := some (.date 0), state := some "TX" }
    rfl (by decide) (by decide) (by decide) (by decide) (by decide) (by decide)

/-! ## Claim C6 -/

/-- C6 counterexample.  The claim says results are ordered by boost score
descending with ties broken by `createdAt` descending and then by record
identifier descending.  No score is computed anywhere in the route, and
the real sort has an extra middle key: `created_at` descending.  Two
records agree on `createdAt` (and, having identical criteria-relevant
fields, on any additive criteria score), so the claimed order is id 2
before id 1; the code returns id 1 first because its `created_at` is
larger. -/
theorem c6_counterexample :
    ((leads_search DEFAULT_PRICING
        [{ oid := 1, createdAt := some (.date 100), created_at := some (.date 50) },
         { oid := 2, createdAt := some (.date 100), created_at := some (.date 20) }]
        {} 1000).items.map (fun it => it.doc.oid)) = [1, 2]
  ∧ (some (Bson.date 100) : Option Bson) = some (Bson.date 100)
  ∧ (1 : ℕ) < 2 :=
  ⟨by decide, rfl, by decide⟩

/-- C6 (amended): no boost score exists; the returned items are ordered by
`createdAt` descending, ties broken by `created_at` descending, and
remaining ties by record identifier descending (`docBefore`), with
missing fields ordered below present ones by Mongo type rank — a
deterministic order on unchanged data. -/
theorem c6_sort_order (pricing : PricingTable) (db : List LeadDoc)
    (body : LeadsSearchRequest) (now : ℚ) :
    (leads_search pricing db body now).items.Pairwise
      (fun a b => docBefore a.doc b.doc) := by
  have hs : (List.insertionSort docBefore (db.filter (matchesQuery body now))).Pairwise
      docBefore := List.sorted_insertionSort docBefore _
  have hsub :
      (((List.insertionSort docBefore (db.filter (matchesQuery body now))).drop
          ((body.page - 1) * body.limit).toNat).take body.limit.toNat).Pairwise
        docBefore :=
    List.Pairwise.sublist ((List.take_sublist _ _).trans (List.drop_sublist _ _)) hs
  exact hsub.map (annotate pricing now) (fun a b hab => hab)

/-! ## Claim C5 -/

lemma take_add_split (L : List α) (m s : ℕ) :
    L.take (m + s) = L.take m ++ (L.drop m).take s := by
  induction m generalizing L with
  | zero => simp
  | succ n ih =>
    cases L with
    | nil => simp
    | cons x xs => simp [Nat.succ_add, ih]

lemma join_pages (L : List α) (s : ℕ) (N : ℕ) :
    ((List.range N).flatMap fun i => (L.drop (i * s)).take s) = L.take (N * s) := by
  induction N with
  | zero => simp
  | succ n ih =>
    rw [List.range_succ, List.flatMap_append, ih]
    simp only [List.flatMap_cons, List.flatMap_nil, List.append_nil]
    rw [Nat.succ_mul, take_add_split]

/-- The built query does not depend on the pagination fields. -/
lemma matchesQuery_page_inv (body : LeadsSearchRequest) (p : ℤ) (now : ℚ) :
    matchesQuery { body with page := p } now = matchesQuery body now := rfl

/-- The page-`i+1` window of a search is the `i`-th length-`limit` slice
of the sorted filtered sequence (annotated). -/
lemma page_items (pricing : PricingTable) (db : List LeadDoc)
    (body : LeadsSearchRequest) (now : ℚ) (i : ℕ) (hl : 1 ≤ body.limit) :
    (leads_search pricing db { body with page := (i : ℤ) + 1 } now).items =
      (((List.insertionSort docBefore
          (db.filter (matchesQuery { body with page := (i : ℤ) + 1 } now))).drop
          (i * body.limit.toNat)).take body.limit.toNat).map (annotate pricing now) := by
  have h0 : (0:ℤ) ≤ body.limit := by linarith
  have hskip : (((i : ℤ) + 1 - 1) * body.limit).toNat = i * body.limit.toNat := by
    rw [show ((i : ℤ) + 1 - 1) * body.limit = (i : ℤ) * body.limit by ring,
      show (body.limit : ℤ) = ((body.limit.toNat : ℕ) : ℤ) by omega,
      ← Nat.cast_mul, Int.toNat_natCast, Int.toNat_natCast]
  show (((List.insertionSort docBefore
      (db.filter (matchesQuery { body with page := (i : ℤ) + 1 } now))).drop
      (((i : ℤ) + 1 - 1) * body.limit).toNat).take body.limit.toNat).map
        (annotate pricing now) = _
  rw [hskip]

/-- C5: the returned items are the slice of the sorted, base-filtered
sequence starting at offset `(page-1)*limit` with at most `limit`
elements; the total is the count of records matching the query,
independent of the pagination window; and concatenating pages `1..N` at a
fixed page size reproduces the full sorted result set exactly (hence with
no duplicates and no omissions) once `N*limit` covers the matching
records. -/
theorem c5_pagination (pricing : PricingTable) (db : List LeadDoc)
    (body : LeadsSearchRequest) (now : ℚ) (hp : 1 ≤ body.page)
    (hl1 : 1 ≤ body.limit) (hl2 : body.limit ≤ 200) :
    (leads_search pricing db body now).items =
      (((List.insertionSort docBefore (db.filter (matchesQuery body now))).drop
          ((body.page - 1) * body.limit).toNat).take body.limit.toNat).map
        (annotate pricing now)
  ∧ (leads_search pricing db body now).total =
      (db.filter (matchesQuery body now)).length
  ∧ ∀ N : ℕ, (db.filter (matchesQuery body now)).length ≤ N * body.limit.toNat →
      ((List.range N).flatMap fun i =>
          (leads_search pricing db { body with page := (i : ℤ) + 1 } now).items) =
        (List.insertionSort docBefore (db.filter (matchesQuery body now))).map
          (annotate pricing now) := by
  refine ⟨rfl, rfl, ?_⟩
  intro N hN
  have hlen : (List.insertionSort docBefore (db.filter (matchesQuery body now))).length ≤
      N * body.limit.toNat := by
    rw [(List.perm_insertionSort docBefore _).length_eq]
    exact hN
  have hfun : (fun i : ℕ =>
        (leads_search pricing db { body with page := (i : ℤ) + 1 } now).items) =
      fun i : ℕ =>
        (((List.insertionSort docBefore (db.filter (matchesQuery body now))).drop
            (i * body.limit.toNat)).take body.limit.toNat).map (annotate pricing now) :=
    funext fun i => by
      rw [page_items pricing db body now i hl1, matchesQuery_page_inv]
  rw [hfun, ← List.map_flatMap, join_pages, List.take_of_length_le hlen]

/-- C5 witness: with one matching record, page size 25, a single page
reproduces the full sorted result set. -/
theorem c5_pagination_witness :
    ((List.range 1).flatMap fun i =>
        (leads_search DEFAULT_PRICING [{ oid := 1, createdAt := some (.date 0) }]
          { page := (i : ℤ) + 1 } 1000).items) =
      (List.insertionSort docBefore
          (([{ oid := 1, createdAt := some (.date 0) }] : List LeadDoc).filter
            (matchesQuery { page := 1 } 1000))).map (annotate DEFAULT_PRICING 1000) :=
  (c5_pagination DEFAULT_PRICING [{ oid := 1, createdAt := some (.date 0) }]
      { page := 1 } 1000 (by decide) (by decide) (by decide)).2.2 1 (by decide)

/-! ## Claim C10 -/

/-- C10: every document in the pagination window is returned (annotated),
regardless of the requested bucket; its price annotation is computed from
its own createdAt-derived bucket and its normalized lead type; and the
price is null when `createdAt`/`created_at` are missing or unparseable or
when the lead type is unrecognized — while the item is still returned. -/
theorem c10_price_annotation (pricing : PricingTable) (db : List LeadDoc)
    (body : LeadsSearchRequest) (now : ℚ) (d : LeadDoc)
    (hd : d ∈ ((List.insertionSort docBefore (db.filter (matchesQuery body now))).drop
        ((body.page - 1) * body.limit).toNat).take body.limit.toNat) :
    annotate pricing now d ∈ (leads_search pricing db body now).items
  ∧ (annotate pricing now d).age_bucket =
      bucket_from_created_at
        (match parse_dt d.createdAt with
         | some u => some u
         | none => parse_dt d.created_at) now
  ∧ (annotate pricing now d).price =
      price_for pricing (norm_type_key_from_doc pricing d)
        ((annotate pricing now d).age_bucket)
  ∧ ((parse_dt d.createdAt = none ∧ parse_dt d.created_at = none) →
      (annotate pricing now d).price = none)
  ∧ (norm_type_key_from_doc pricing d = none →
      (annotate pricing now d).price = none) := by
  refine ⟨List.mem_map_of_mem _ hd, rfl, rfl, ?_, ?_⟩
  · rintro ⟨hcA, hcB⟩
    show price_for pricing (norm_type_key_from_doc pricing d)
        (bucket_from_created_at
          (match parse_dt d.createdAt with
           | some u => some u
           | none => parse_dt d.created_at) now) = none
    rw [hcA, hcB]
    cases norm_type_key_from_doc pricing d <;> rfl
  · intro htk
    show price_for pricing (norm_type_key_from_doc pricing d)
        (bucket_from_created_at
          (match parse_dt d.createdAt with
           | some u => some u
           | none => parse_dt d.created_at) now) = none
    rw [htk]
    cases hb : bucket_from_created_at
        (match parse_dt d.createdAt with
         | some u => some u
         | none => parse_dt d.created_at) now <;> rfl

/-- C10 witness: a record with an unparseable `createdAt` string and no
recognizable lead type is still returned, with a null price. -/
theorem c10_price_annotation_witness :
    (annotate DEFAULT_PRICING 0 { oid := 1, createdAt := some (.str "garbage") } ∈
        (leads_search DEFAULT_PRICING [{ oid := 1, createdAt := some (.str "garbage") }]
          {} 0).items)
  ∧ (annotate DEFAULT_PRICING 0 { oid := 1, createdAt := some (.str "garbage") }).age_bucket =
      bucket_from_created_at
        (match parse_dt (some (.str "garbage")) with
         | some u => some u
         | none => parse_dt (none : Option Bson)) 0
  ∧ (annotate DEFAULT_PRICING 0 { oid := 1, createdAt := some (.str "garbage") }).price =
      price_for DEFAULT_PRICING
        (norm_type_key_from_doc DEFAULT_PRICING { oid := 1, createdAt := some (.str "garbage") })
        ((annotate DEFAULT_PRICING 0 { oid := 1, createdAt := some (.str "garbage") }).age_bucket)
  ∧ ((parse_dt (some (.str "garbage")) = none ∧ parse_dt (none : Option Bson) = none) →
      (annotate DEFAULT_PRICING 0 { oid := 1, createdAt := some (.str "garbage") }).price = none)
  ∧ (norm_type_key_from_doc DEFAULT_PRICING { oid := 1, createdAt := some (.str "garbage") } = none →
      (annotate DEFAULT_PRICING 0 { oid := 1, createdAt := some (.str "garbage") }).price = none) :=
  c10_price_annotation DEFAULT_PRICING [{ oid := 1, createdAt := some (.str "garbage") }]
    {} 0 { oid := 1, createdAt := some (.str "garbage") } (by decide)

/-! ## Claim C9 -/

/-- A search over a store in which no document matches the built query
returns no items. -/
lemma search_items_of_filter_nil (pricing : PricingTable) (db : List LeadDoc)
    (body : LeadsSearchRequest) (now : ℚ)
    (h : db.filter (matchesQuery body now) = []) :
    (leads_search pricing db body now).items = [] := by
  unfold leads_search
  dsimp only
  rw [h]
  simp [List.insertionSort]

set_option maxHeartbeats 1000000 in
/-- C9: for a record whose age lies strictly inside one of the gaps
(3,4), (14,15), (30,31) or (90,91) days, every bucket range query the
search can build rejects the record, so searches for each specific tier
return nothing; only the "ALL" filter (which builds no range clause)
returns it — even though the classifier does assign the record a tier. -/
theorem c9_gap_ages (t now : ℚ)
    (hgap : (3 < (now - t) / 86400 ∧ (now - t) / 86400 < 4)
      ∨ (14 < (now - t) / 86400 ∧ (now - t) / 86400 < 15)
      ∨ (30 < (now - t) / 86400 ∧ (now - t) / 86400 < 31)
      ∨ (90 < (now - t) / 86400 ∧ (now - t) / 86400 < 91)) :
    (∀ (b : String) (p : LeadDoc → Bool), bucket_range_query now b = some p →
        p { oid := 0, createdAt := some (.date t) } = false)
  ∧ (bucket_from_created_at (some t) now).isSome = true
  ∧ (∀ b ∈ (["YESTERDAY_72H", "DAYS_4_14", "DAYS_15_30", "DAYS_31_90",
        "DAYS_91_PLUS"] : List String),
      (leads_search DEFAULT_PRICING [{ oid := 0, createdAt := some (.date t) }]
          { bucket := b } now).items = [])
  ∧ ((leads_search DEFAULT_PRICING [{ oid := 0, createdAt := some (.date t) }]
        { bucket := "ALL" } now).items.map AnnotatedLead.doc) =
      [{ oid := 0, createdAt := some (.date t) }] := by
  have h86 : (0:ℚ) < 86400 := by norm_num
  have hsec : (259200 < now - t ∧ now - t < 345600)
      ∨ (1209600 < now - t ∧ now - t < 1296000)
      ∨ (2592000 < now - t ∧ now - t < 2678400)
      ∨ (7776000 < now - t ∧ now - t < 7862400) := by
    rcases hgap with ⟨hA, hB⟩ | ⟨hA, hB⟩ | ⟨hA, hB⟩ | ⟨hA, hB⟩
    · left
      have h1 := (lt_div_iff h86).mp hA
      have h2 := (div_lt_iff h86).mp hB
      constructor <;> linarith
    · right; left
      have h1 := (lt_div_iff h86).mp hA
      have h2 := (div_lt_iff h86).mp hB
      constructor <;> linarith
    · right; right; left
      have h1 := (lt_div_iff h86).mp hA
      have h2 := (div_lt_iff h86).mp hB
      constructor <;> linarith
    · right; right; right
      have h1 := (lt_div_iff h86).mp hA
      have h2 := (div_lt_iff h86).mp hB
      constructor <;> linarith
  have key : ∀ (b : String) (p : LeadDoc → Bool), bucket_range_query now b = some p →
      p { oid := 0, createdAt := some (.date t) } = false := by
    intro b p hp
    simp only [bucket_range_query] at hp
    split_ifs at hp
    all_goals cases hp
    all_goals
      simp only [orCreated, dateGe, dateLe, Bool.or_eq_false_iff,
        Bool.and_eq_false_iff, decide_eq_false_iff_not, not_le]
    all_goals
      rcases hsec with ⟨u1, u2⟩ | ⟨u1, u2⟩ | ⟨u1, u2⟩ | ⟨u1, u2⟩ <;>
        first
        | exact ⟨by linarith, trivial⟩
        | exact ⟨Or.inl (by linarith), Or.inl trivial⟩
        | exact ⟨Or.inr (by linarith), Or.inl trivial⟩
  refine ⟨key, rfl, ?_, rfl⟩
  intro b hb
  have hmq : ∀ (p : LeadDoc → Bool),
      bucket_range_query now (norm_bucket b) = some p →
      matchesQuery { bucket := b } now { oid := 0, createdAt := some (.date t) } = false := by
    intro p hp
    have hpd := key (norm_bucket b) p hp
    unfold matchesQuery and_clauses
    dsimp only
    rw [hp]
    simp [hpd]
  have hfilter : (([{ oid := 0, createdAt := some (.date t) }] : List LeadDoc).filter
      (matchesQuery { bucket := b } now)) = [] := by
    fin_cases hb <;>
    · rw [List.filter_cons, List.filter_nil]
      rw [hmq _ rfl]
      rfl
  exact search_items_of_filter_nil _ _ _ _ hfilter

/-- C9 witness: a record aged exactly 3.5 days (302400 seconds). -/
theorem c9_gap_ages_witness :
    ((3 < ((302400 : ℚ) - 0) / 86400 ∧ ((302400 : ℚ) - 0) / 86400 < 4)
      ∨ (14 < ((302400 : ℚ) - 0) / 86400 ∧ ((302400 : ℚ) - 0) / 86400 < 15)
      ∨ (30 < ((302400 : ℚ) - 0) / 86400 ∧ ((302400 : ℚ) - 0) / 86400 < 31)
      ∨ (90 < ((302400 : ℚ) - 0) / 86400 ∧ ((302400 : ℚ) - 0) / 86400 < 91))
  ∧ (∀ (b : String) (p : LeadDoc → Bool), bucket_range_query 302400 b = some p →
      p { oid := 0, createdAt := some (.date 0) } = false) :=
  ⟨Or.inl (by constructor <;> norm_num),
    (c9_gap_ages 0 302400 (Or.inl (by constructor <;> norm_num))).1⟩


end YesterdaysLeads
